import Mathlib

/-!
Verification development for the MCP bridge of the ifc repository:
the command registry (blender_addon/api/__init__.py), the command
dispatcher (blender_addon/commands.py), the socket server, connection
handler and main-thread scheduler (blender_addon/core.py), and the
client connector (src/blender_mcp/server.py).

Python values decoded from JSON are modelled by the inductive type
Value; Python dicts by ordered association lists with dict update
semantics; handlers as functions from a parameter mapping to
Except String Value, where the error case models a raised exception
whose str() is the carried message.
-/

namespace IfcMCP

/-- A JSON-decodable Python value: None, bool, int, str, list, dict. -/
inductive Value where
  | null : Value
  | bool (b : Bool) : Value
  | num (n : Int) : Value
  | str (s : String) : Value
  | arr (xs : List Value) : Value
  | obj (fields : List (String × Value)) : Value

/-- A parameter mapping, as decoded from the params member of a command. -/
abbrev Params := List (String × Value)

/-- Lookup in a Python dict modelled as an ordered association list. -/
def dictLookup (k : String) : List (String × α) → Option α
  | [] => none
  | (k2, v) :: rest => if k2 = k then some v else dictLookup k rest

/-- Python dict assignment: replace the entry in place if present, else append. -/
def dictInsert (k : String) (v : α) : List (String × α) → List (String × α)
  | [] => [(k, v)]
  | (k2, v2) :: rest =>
    if k2 = k then (k, v) :: rest else (k2, v2) :: dictInsert k v rest

/-- The success response envelope built at commands.py line 66. -/
def successEnv (r : Value) : Value :=
  Value.obj [( "status", Value.str "success"), ( "result", r)]

/-- The error response envelope built at commands.py lines 68 and 72. -/
def errorEnv (m : String) : Value :=
  Value.obj [( "status", Value.str "error"), ( "message", Value.str m)]

/-- A command handler: invocation either returns a value or raises an
exception whose str() is the carried message; doc models its
optional docstring attribute. -/
structure Handler where
  run : Params → Except String Value
  doc : Option String := none

/-- A registry entry as stored by register_command: the handler function
and the resolved description string. -/
structure RegEntry where
  handler : Handler
  description : String

/-- The command registry dict of blender_addon/api/__init__.py. -/
abbrev Registry := List (String × RegEntry)

/-- Python truthiness chain for `a or b` on an optional string:
None and the empty string are falsy. -/
def pyOrStr (a : Option String) (b : String) : String :=
  match a with
  | some s => if s = "" then b else s
  | none => b

/-- register_command of api/__init__.py: stores the handler under
command_name, resolving the description as
description or handler doc or a fixed fallback; a dict assignment,
so a second registration under the same name replaces the first. -/
def register_command (reg : Registry) (command_name : String)
    (description : Option String) (handler_function : Handler) : Registry :=
  dictInsert command_name
    ⟨handler_function,
      pyOrStr description (pyOrStr handler_function.doc "No description provided")⟩
    reg

/-- get_command of api/__init__.py: the stored handler, or none. -/
def get_command (reg : Registry) (command_name : String) : Option Handler :=
  match dictLookup command_name reg with
  | some entry => some entry.handler
  | none => none

/-- execute_command of blender_addon/commands.py: look up the handler;
invoke it and wrap a normal return in a success envelope; convert an
absent handler or a raised exception into an error envelope. A params
argument of none models the Python default None, replaced by the empty
dict at lines 58 and 59. -/
def execute_command (reg : Registry) (command_type : String)
    (params : Option Params) : Value :=
  let ps := params.getD []
  match get_command reg command_type with
  | some handler =>
    match handler.run ps with
    | Except.ok result => successEnv result
    | Except.error e => errorEnv e
  | none => errorEnv ("Unknown command type: " ++ command_type)

/-- A decoded command object whose member values have the expected
types: an optional type string and an optional params dict, either of
which may be absent from the JSON object. -/
structure CommandMsg where
  type? : Option String := none
  params? : Option Params := none

/-- BlenderMCPServer._execute_command_internal of core.py: default a
missing type to the empty string and missing params to the empty dict,
answer ping directly, otherwise dispatch through
commands.execute_command. -/
def execute_command_internal (reg : Registry) (command : CommandMsg) : Value :=
  let command_type := command.type?.getD ""
  let params := command.params?.getD []
  if command_type = "ping" then successEnv (Value.str "pong")
  else execute_command reg command_type (some params)

/-- The synthetic timeout envelope of core.py line 158. -/
def timeoutEnv : Value :=
  errorEnv "Command execution timed out"

/-- The poll-wait loop of BlenderMCPServer.execute_command, core.py
lines 153 to 159, with time in milliseconds: check the completion flag;
if unset, sleep 10 ms and return the synthetic timeout envelope once
more than 30000 ms have elapsed, otherwise poll again. doneAt t gives
the value of the completion flag at elapsed time t. -/
def pollLoop (doneAt : Nat → Bool) (result : Value) (t : Nat) : Value :=
  if doneAt t then result
  else if t + 10 > 30000 then timeoutEnv
  else pollLoop doneAt result (t + 10)
termination_by 30000 - t
decreasing_by omega

/-- BlenderMCPServer.execute_command of core.py, lines 135 to 159:
register the command executor with the timer scheduler (a registration
the submitter never undoes), then poll the completion flag from elapsed
time zero. The stored result, read when the flag is seen set, is the
value of _execute_command_internal on the command. -/
def server_execute_command (reg : Registry) (command : CommandMsg)
    (doneAt : Nat → Bool) (timers : List CommandMsg) :
    List CommandMsg × Value :=
  (timers ++ [command], pollLoop doneAt (execute_command_internal reg command) 0)

/-- Outcome of json.loads on an accumulated byte buffer: a decoded
value, a JSONDecodeError (the buffer is not one complete JSON value),
or another exception such as UnicodeDecodeError from decoding the
bytes, with its message. -/
inductive DecodeResult (α : Type) where
  | ok (v : α) : DecodeResult α
  | jsonError (m : String) : DecodeResult α
  | exn (m : String) : DecodeResult α

/-- The per-read body of BlenderMCPServer._handle_client, core.py lines
107 to 125: append the data to the buffer; if the buffer now decodes as
one complete command, clear it and dispatch, answering with the
response; on JSONDecodeError keep the grown buffer and keep reading; on
any other exception keep the grown buffer and answer with an error
envelope. Returns the new buffer and the response written, if any. -/
def handleStep (decode : List Nat → DecodeResult CommandMsg)
    (exec : CommandMsg → Value) (buf data : List Nat) :
    List Nat × Option Value :=
  let buf2 := buf ++ data
  match decode buf2 with
  | DecodeResult.ok command => ([], some (exec command))
  | DecodeResult.jsonError _ => (buf2, none)
  | DecodeResult.exn m => (buf2, some (errorEnv m))

/-- One outcome of the blocking recv call in _handle_client: data
bytes, a zero-length read (peer closed), or a raised socket
exception. -/
inductive ReadEvent where
  | data (b : List Nat) : ReadEvent
  | closed : ReadEvent
  | exn (m : String) : ReadEvent

/-- Why the _handle_client loop exited. -/
inductive ExitReason where
  | peerClosed : ExitReason
  | sockExn (m : String) : ExitReason
  | serverStopped : ExitReason

/-- Result of running _handle_client against a prefix of the socket
trace: either the loop exited (listing the responses written, the exit
reason, and whether the finally block closed the socket), or it is
still blocked in recv awaiting events beyond the supplied trace. -/
inductive HandlerOutcome where
  | exited (responses : List Value) (reason : ExitReason)
      (socketClosed : Bool) : HandlerOutcome
  | blocked (responses : List Value) (buf : List Nat) : HandlerOutcome

/-- Prepend an optional written response to an outcome. -/
def consResp (r? : Option Value) : HandlerOutcome → HandlerOutcome
  | HandlerOutcome.exited rs reason c =>
    HandlerOutcome.exited (r?.toList ++ rs) reason c
  | HandlerOutcome.blocked rs b =>
    HandlerOutcome.blocked (r?.toList ++ rs) b

/-- BlenderMCPServer._handle_client of core.py, lines 95 to 133: while
the running flag holds, recv; a zero-length read breaks the loop, a
socket exception is caught by the outer handler, and data is processed
by the per-read body; on every exit the finally block closes the client
socket. running i is the running flag as read before iteration i;
events is the trace the socket will deliver. -/
def handle_client (decode : List Nat → DecodeResult CommandMsg)
    (exec : CommandMsg → Value) (running : Nat → Bool)
    (events : List ReadEvent) (buf : List Nat) (i : Nat) : HandlerOutcome :=
  if running i then
    match events with
    | [] => HandlerOutcome.blocked [] buf
    | ReadEvent.closed :: _ =>
      HandlerOutcome.exited [] ExitReason.peerClosed true
    | ReadEvent.exn m :: _ =>
      HandlerOutcome.exited [] (ExitReason.sockExn m) true
    | ReadEvent.data d :: rest =>
      let step := handleStep decode exec buf d
      consResp step.2 (handle_client decode exec running rest step.1 (i + 1))
  else HandlerOutcome.exited [] ExitReason.serverStopped true

/-- One outcome of the blocking recv call in
BlenderConnection.receive_full_response: a data chunk, a zero-length
read, a socket.timeout, or another socket.error with message m. -/
inductive RecvEvent where
  | chunk (d : List Nat) : RecvEvent
  | closed : RecvEvent
  | timeout : RecvEvent
  | err (m : String) : RecvEvent

/-- An exception escaping receive_full_response: a socket.error with
str() m, or a plain Exception with message m (the converted timeout, or
a UnicodeDecodeError from decoding the buffer). -/
inductive PyExn where
  | sockErr (m : String) : PyExn
  | generic (m : String) : PyExn

/-- BlenderConnection.receive_full_response of src/blender_mcp/server.py,
lines 48 to 69: grow a buffer chunk by chunk until it decodes as one
complete JSON value or the peer closes, converting socket.timeout into
a plain Exception and letting other socket errors propagate; none means
the trace ran out with the call still blocked in recv. -/
def receive_full_response (decode : List Nat → DecodeResult Value) :
    List RecvEvent → List Nat → Option (Except PyExn (List Nat))
  | [], _ => none
  | RecvEvent.closed :: _, buf => some (Except.ok buf)
  | RecvEvent.timeout :: _, _ =>
    some (Except.error (PyExn.generic "Timeout while receiving data from Blender"))
  | RecvEvent.err m :: _, _ => some (Except.error (PyExn.sockErr m))
  | RecvEvent.chunk d :: rest, buf =>
    let buf2 := buf ++ d
    match decode buf2 with
    | DecodeResult.ok _ => some (Except.ok buf2)
    | DecodeResult.jsonError _ => receive_full_response decode rest buf2
    | DecodeResult.exn m => some (Except.error (PyExn.generic m))

/-- The distinct failure kinds raised by BlenderConnection.send_command:
the ConnectionError when not connected, the socket.error wrapper, the
JSONDecodeError wrapper, and the generic communication wrapper. -/
inductive SendFailure where
  | notConnected : SendFailure
  | connectionLost (m : String) : SendFailure
  | invalidResponse (m : String) : SendFailure
  | communicationError (m : String) : SendFailure

/-- The cached connection state of a BlenderConnection: the sock field,
none when no socket is cached. -/
structure ConnState where
  sock : Option Unit := none

/-- Outcome of the sendall call in send_command. -/
inductive SendOutcome where
  | ok : SendOutcome
  | sockErr (m : String) : SendOutcome

/-- The Python type name of a decoded JSON value, as it appears in the
str() of the AttributeError raised by calling .get on a non-dict. -/
def pyTypeName : Value → String
  | Value.null => "NoneType"
  | Value.bool _ => "bool"
  | Value.num _ => "int"
  | Value.str _ => "str"
  | Value.arr _ => "list"
  | Value.obj _ => "dict"

/-- BlenderConnection.send_command of src/blender_mcp/server.py, lines
71 to 112: connect lazily; send, receive a full response, decode it and
unwrap it, mapping each exception to its handler: socket.error clears
the cached socket and raises the connection-lost wrapper,
JSONDecodeError raises the invalid-response wrapper leaving the socket
cached, and any other exception clears the socket and raises the
communication wrapper. connectOk tells whether a connect attempt would
succeed, sendRes the outcome of sendall, recvEvents the socket trace
for the receive loop; none means the call is still blocked. -/
def send_command (decode : List Nat → DecodeResult Value)
    (connectOk : Bool) (sendRes : SendOutcome)
    (recvEvents : List RecvEvent) (st : ConnState) :
    Option (ConnState × Except SendFailure Value) :=
  match st.sock, connectOk with
  | none, false => some (⟨none⟩, Except.error SendFailure.notConnected)
  | _, _ =>
    match sendRes with
    | SendOutcome.sockErr m =>
      some (⟨none⟩, Except.error (SendFailure.connectionLost
        ("Connection to Blender lost: " ++ m)))
    | SendOutcome.ok =>
      match receive_full_response decode recvEvents [] with
      | none => none
      | some (Except.error (PyExn.sockErr m)) =>
        some (⟨none⟩, Except.error (SendFailure.connectionLost
          ("Connection to Blender lost: " ++ m)))
      | some (Except.error (PyExn.generic m)) =>
        some (⟨none⟩, Except.error (SendFailure.communicationError
          ("Communication error with Blender: " ++ m)))
      | some (Except.ok bytes) =>
        match decode bytes with
        | DecodeResult.jsonError m =>
          some (⟨some ()⟩, Except.error (SendFailure.invalidResponse
            ("Invalid response from Blender: " ++ m)))
        | DecodeResult.exn m =>
          some (⟨none⟩, Except.error (SendFailure.communicationError
            ("Communication error with Blender: " ++ m)))
        | DecodeResult.ok response =>
          match response with
          | Value.obj fields =>
            match dictLookup "status" fields with
            | some (Value.str "error") =>
              some (⟨some ()⟩, Except.ok (Value.obj
                [( "error", (dictLookup "message" fields).getD
                    (Value.str "Unknown error"))]))
            | _ =>
              some (⟨some ()⟩, Except.ok
                ((dictLookup "result" fields).getD (Value.obj [])))
          | v =>
            some (⟨none⟩, Except.error (SendFailure.communicationError
              ("Communication error with Blender: \x27" ++ pyTypeName v
                ++ "\x27 object has no attribute \x27get\x27")))

/-- The lifecycle state of a BlenderMCPServer: the running flag, the
listening socket handle and the accept-thread handle. -/
structure ServerState where
  running : Bool := false
  sock : Option Unit := none
  thread : Option Unit := none

/-- Outcome of the socket setup in start: success, or a failure at some
stage (sockAssigned tells whether the socket attribute had already been
assigned when the exception was raised, as it is when bind or listen
fails but not when socket creation itself fails). -/
inductive StartOutcome where
  | ok : StartOutcome
  | fail (sockAssigned : Bool) : StartOutcome

/-- BlenderMCPServer.stop of core.py, lines 51 to 70: clear the running
flag, close and drop the socket, join and drop the accept thread. -/
def serverStop (_st : ServerState) : ServerState :=
  { running := false, sock := none, thread := none }

/-- BlenderMCPServer.start of core.py, lines 28 to 49: a no-op when
already running; otherwise set the running flag, create, bind and
listen on the socket and spawn the accept thread; on any exception in
that block, fall back to stop. -/
def serverStart (st : ServerState) (outcome : StartOutcome) : ServerState :=
  if st.running then st
  else
    match outcome with
    | StartOutcome.ok => { running := true, sock := some (), thread := some () }
    | StartOutcome.fail sockAssigned =>
      serverStop { running := true,
                   sock := if sockAssigned then some () else st.sock,
                   thread := st.thread }

/-! Helper lemmas about the dict model. -/

theorem dictLookup_dictInsert (k : String) (v : α) (l : List (String × α)) :
    dictLookup k (dictInsert k v l) = some v := by
  induction l with
  | nil => simp [dictInsert, dictLookup]
  | cons p rest ih =>
    obtain ⟨k2, v2⟩ := p
    by_cases hk : k2 = k
    · simp [dictInsert, hk, dictLookup]
    · simp [dictInsert, hk, dictLookup, ih]

theorem dictLookup_not_mem (k : String) (l : List (String × α))
    (h : k ∉ l.map Prod.fst) : dictLookup k l = none := by
  induction l with
  | nil => rfl
  | cons p rest ih =>
    obtain ⟨k2, v2⟩ := p
    simp only [List.map_cons, List.mem_cons, not_or] at h
    simp only [dictLookup]
    rw [if_neg (fun hh => h.1 hh.symm)]
    exact ih h.2

/-! Concrete fixtures used by witness theorems. -/

/-- A handler that returns the string pong on any parameters. -/
def pingHandler : Handler := ⟨fun _ => Except.ok (Value.str "pong"), none⟩

/-- A handler that raises on any parameters. -/
def failHandler : Handler := ⟨fun _ => Except.error "boom", none⟩

/-- Claim C1: for every registered command name and parameter mapping
its handler accepts, the dispatcher returns exactly the success
envelope wrapping the value the handler returned on those
parameters. -/
theorem claim1_dispatch_success (reg : Registry) (name : String)
    (h : Handler) (ps : Params) (r : Value)
    (hreg : get_command reg name = some h)
    (hrun : h.run ps = Except.ok r) :
    execute_command reg name (some ps) = successEnv r := by
  simp [execute_command, hreg, hrun]

theorem claim1_witness :
    get_command (register_command [] "ping" none pingHandler) "ping"
        = some pingHandler ∧
    pingHandler.run [] = Except.ok (Value.str "pong") ∧
    execute_command (register_command [] "ping" none pingHandler) "ping" (some [])
        = successEnv (Value.str "pong") :=
  ⟨rfl, rfl,
    claim1_dispatch_success (register_command [] "ping" none pingHandler)
      "ping" pingHandler [] (Value.str "pong") rfl rfl⟩

/-- Claim C2: for every command name absent from the registry, the
dispatcher returns exactly the unknown-command error envelope with the
submitted name interpolated. -/
theorem claim2_unknown_command (reg : Registry) (name : String)
    (ps : Option Params) (hreg : get_command reg name = none) :
    execute_command reg name ps = errorEnv ("Unknown command type: " ++ name) := by
  simp [execute_command, hreg]

theorem claim2_witness :
    get_command [] "missing_cmd" = none ∧
    execute_command [] "missing_cmd" (some [])
        = errorEnv "Unknown command type: missing_cmd" :=
  ⟨rfl, (claim2_unknown_command [] "missing_cmd" (some []) rfl).trans (by rfl)⟩

/-- Claim C3: a handler that raises is caught at the dispatcher
boundary and converted into an error envelope carrying the failure
text; the dispatcher is total, so no handler failure propagates. -/
theorem claim3_handler_error (reg : Registry) (name : String)
    (h : Handler) (ps : Params) (e : String)
    (hreg : get_command reg name = some h)
    (hrun : h.run ps = Except.error e) :
    execute_command reg name (some ps) = errorEnv e := by
  simp [execute_command, hreg, hrun]

theorem claim3_witness :
    get_command (register_command [] "boom" none failHandler) "boom"
        = some failHandler ∧
    failHandler.run [] = Except.error "boom" ∧
    execute_command (register_command [] "boom" none failHandler) "boom" (some [])
        = errorEnv "boom" :=
  ⟨rfl, rfl,
    claim3_handler_error (register_command [] "boom" none failHandler)
      "boom" failHandler [] "boom" rfl rfl⟩

/-- Claim C9: registering twice under one name silently overwrites, so
lookup afterwards returns the second handler; lookup of a name never
registered returns none. -/
theorem claim9_registry (reg : Registry) (n : String)
    (d1 d2 : Option String) (h1 h2 : Handler) :
    get_command (register_command (register_command reg n d1 h1) n d2 h2) n
        = some h2 ∧
    ∀ (reg2 : Registry) (m : String),
      m ∉ reg2.map Prod.fst → get_command reg2 m = none := by
  constructor
  · simp [get_command, register_command, dictLookup_dictInsert]
  · intro reg2 m hm
    simp [get_command, dictLookup_not_mem m reg2 hm]

theorem claim9_witness :
    get_command
        (register_command (register_command [] "create_wall" none pingHandler)
          "create_wall" none failHandler) "create_wall" = some failHandler ∧
    get_command [] "never_registered" = none :=
  ⟨(claim9_registry [] "create_wall" none none pingHandler failHandler).1,
   (claim9_registry [] "create_wall" none none pingHandler failHandler).2
     [] "never_registered" (by simp)⟩

/-- A value of the exact shape of a response envelope: a success
envelope around some result, or an error envelope around some
message. -/
def IsEnvelope (v : Value) : Prop :=
  (∃ r, v = successEnv r) ∨ (∃ m, v = errorEnv m)

theorem execute_command_isEnvelope (reg : Registry) (ct : String)
    (ps : Option Params) : IsEnvelope (execute_command reg ct ps) := by
  unfold execute_command IsEnvelope
  cases hg : get_command reg ct with
  | none => simp
  | some h =>
    cases hr : h.run (ps.getD []) with
    | ok r => simp [hr]
    | error e => simp [hr]

/-- Claim C10: a decoded command with the type member missing defaults
it to the empty string, yielding the unknown-command envelope when the
empty string is unregistered; a missing params member defaults to the
empty mapping; and every decoded command produces a well-formed
response envelope. -/
theorem claim10_defaults (reg : Registry) (p : Option Params) (t : String)
    (hreg : get_command reg "" = none) :
    execute_command_internal reg ⟨none, p⟩ = errorEnv "Unknown command type: " ∧
    execute_command_internal reg ⟨some t, none⟩
        = execute_command_internal reg ⟨some t, some []⟩ ∧
    ∀ c : CommandMsg, IsEnvelope (execute_command_internal reg c) := by
  refine ⟨?_, ?_, ?_⟩
  · simp [execute_command_internal, execute_command, hreg]
  · simp [execute_command_internal]
  · intro c
    unfold execute_command_internal
    by_cases hping : c.type?.getD "" = "ping"
    · simp only [hping, if_true]
      exact Or.inl ⟨Value.str "pong", rfl⟩
    · simp only [hping, if_false]
      exact execute_command_isEnvelope reg (c.type?.getD "") (some (c.params?.getD []))

theorem claim10_witness :
    get_command [] "" = none ∧
    execute_command_internal [] ⟨none, none⟩ = errorEnv "Unknown command type: " :=
  ⟨rfl, (claim10_defaults [] none "x" rfl).1⟩

/-! Poll-loop lemmas for the main-thread scheduler. -/

theorem pollLoop_of_timeout (doneAt : Nat → Bool) (r : Value)
    (h : ∀ u, u ≤ 30000 → doneAt u = false) :
    ∀ k t, 30000 - t ≤ k → t ≤ 30000 → pollLoop doneAt r t = timeoutEnv := by
  intro k
  induction k with
  | zero =>
    intro t hk ht
    have ht30 : t = 30000 := by omega
    subst ht30
    rw [pollLoop]
    simp [h 30000 (by omega)]
  | succ k ih =>
    intro t hk ht
    rw [pollLoop]
    simp only [h t ht, Bool.false_eq_true, if_false]
    by_cases hb : t + 10 > 30000
    · simp [hb]
    · rw [if_neg hb]
      exact ih (t + 10) (by omega) (by omega)

theorem pollLoop_of_done (doneAt : Nat → Bool) (r : Value)
    (mono : ∀ s u, s ≤ u → doneAt s = true → doneAt u = true)
    (t0 : Nat) (ht0 : t0 ≤ 30000) (hd : doneAt t0 = true) :
    ∀ k t, 30000 - t ≤ k → t % 10 = 0 → t ≤ 30000 → pollLoop doneAt r t = r := by
  intro k
  induction k with
  | zero =>
    intro t hk hm ht
    have ht30 : t = 30000 := by omega
    subst ht30
    rw [pollLoop]
    simp [mono t0 30000 ht0 hd]
  | succ k ih =>
    intro t hk hm ht
    by_cases hdt : doneAt t = true
    · rw [pollLoop]
      simp [hdt]
    · have hlt : t < t0 := by
        by_contra hge
        push_neg at hge
        exact hdt (mono t0 t hge hd)
      have hdf : doneAt t = false := by
        revert hdt
        cases doneAt t <;> simp
      rw [pollLoop]
      simp only [hdf, Bool.false_eq_true, if_false]
      have hb : ¬ (t + 10 > 30000) := by omega
      rw [if_neg hb]
      exact ih (t + 10) (by omega) (by omega) (by omega)

/-- Claim C4: the submitter polls the completion flag on a 10 ms
interval; if the flag, which transitions only forward, is set within
30 s, the stored result of running the command on the host thread is
returned, and if 30 s pass with the flag unset the exact synthetic
timeout envelope is returned while the registered job stays registered
and its stored result is not the value returned. -/
theorem claim4_scheduler_wait (reg : Registry) (command : CommandMsg)
    (doneAt : Nat → Bool) (timers : List CommandMsg) :
    ((∀ s u, s ≤ u → doneAt s = true → doneAt u = true) →
      ∀ t0, t0 ≤ 30000 → doneAt t0 = true →
        server_execute_command reg command doneAt timers
          = (timers ++ [command], execute_command_internal reg command)) ∧
    ((∀ u, u ≤ 30000 → doneAt u = false) →
      server_execute_command reg command doneAt timers
        = (timers ++ [command], timeoutEnv)) := by
  constructor
  · intro mono t0 ht0 hd
    unfold server_execute_command
    rw [pollLoop_of_done doneAt (execute_command_internal reg command)
      mono t0 ht0 hd 30000 0 (by omega) (by omega) (by omega)]
  · intro h
    unfold server_execute_command
    rw [pollLoop_of_timeout doneAt (execute_command_internal reg command)
      h 30000 0 (by omega) (by omega)]

theorem claim4_witness :
    server_execute_command [] ⟨some "ping", none⟩ (fun _ => false) []
      = ([⟨some "ping", none⟩], timeoutEnv) :=
  (claim4_scheduler_wait [] ⟨some "ping", none⟩ (fun _ => false) []).2
    (fun _ _ => rfl)

/-- A concrete decode function for witnesses: the two-byte buffer
decodes as a ping command, anything else is incomplete. -/
def decodeW : List Nat → DecodeResult CommandMsg :=
  fun b => if b = [1, 2] then DecodeResult.ok ⟨some "ping", none⟩
           else DecodeResult.jsonError "Expecting value"

/-- A concrete dispatch function for witnesses. -/
def execW : CommandMsg → Value :=
  fun c => execute_command_internal [] c

/-- Claim C5: after each read, if the accumulated buffer decodes as one
complete JSON command the per-read body clears the buffer and
dispatches the command, and if decoding fails the buffer is exactly the
old buffer with the new data appended. -/
theorem claim5_buffer (decode : List Nat → DecodeResult CommandMsg)
    (exec : CommandMsg → Value) (buf data : List Nat) :
    (∀ c, decode (buf ++ data) = DecodeResult.ok c →
        handleStep decode exec buf data = ([], some (exec c))) ∧
    (∀ m, decode (buf ++ data) = DecodeResult.jsonError m →
        handleStep decode exec buf data = (buf ++ data, none)) ∧
    (∀ m, decode (buf ++ data) = DecodeResult.exn m →
        handleStep decode exec buf data = (buf ++ data, some (errorEnv m))) := by
  refine ⟨?_, ?_, ?_⟩ <;> intro x hx <;> simp [handleStep, hx]

theorem claim5_witness :
    decodeW ([1] ++ [2]) = DecodeResult.ok ⟨some "ping", none⟩ ∧
    handleStep decodeW execW [1] [2]
      = ([], some (successEnv (Value.str "pong"))) := by
  constructor
  · rfl
  · exact ((claim5_buffer decodeW execW [1] [2]).1 ⟨some "ping", none⟩ rfl).trans (by rfl)

/-- Claim C6: the connection-handler loop exits on a zero-length read,
on a socket exception escaping the per-message handling, or when the
running flag is cleared, and on every exit path the socket is closed;
events past the first terminating event are never consumed. -/
theorem claim6_handler_exit (decode : List Nat → DecodeResult CommandMsg)
    (exec : CommandMsg → Value) :
    (∀ (running : Nat → Bool) (events : List ReadEvent) (buf : List Nat)
        (i : Nat) (rs : List Value) (reason : ExitReason) (c : Bool),
        handle_client decode exec running events buf i
          = HandlerOutcome.exited rs reason c → c = true) ∧
    (∀ (pre : List ReadEvent) (t : ReadEvent) (rest : List ReadEvent)
        (buf : List Nat) (i : Nat),
        (∀ e ∈ pre, ∃ d, e = ReadEvent.data d) →
        (t = ReadEvent.closed ∨ ∃ m, t = ReadEvent.exn m) →
        handle_client decode exec (fun _ => true) (pre ++ t :: rest) buf i
          = handle_client decode exec (fun _ => true) (pre ++ [t]) buf i) := by
  constructor
  · intro running events
    induction events with
    | nil =>
      intro buf i rs reason c h
      rw [handle_client.eq_def] at h
      by_cases hr : running i = true
      · simp [hr] at h
      · rw [if_neg hr] at h
        injection h with h1 h2 h3
        exact h3.symm
    | cons e rest ih =>
      intro buf i rs reason c h
      rw [handle_client.eq_def] at h
      by_cases hr : running i = true
      · rw [if_pos hr] at h
        cases e with
        | closed =>
          injection h with h1 h2 h3
          exact h3.symm
        | exn m =>
          injection h with h1 h2 h3
          exact h3.symm
        | data d =>
          simp only at h
          cases hrec : handle_client decode exec running rest
              (handleStep decode exec buf d).1 (i + 1) with
          | exited rs2 reason2 c2 =>
            rw [hrec] at h
            simp only [consResp] at h
            injection h with h1 h2 h3
            exact h3 ▸ ih (handleStep decode exec buf d).1 (i + 1) rs2 reason2 c2 hrec
          | blocked rs2 b2 =>
            rw [hrec] at h
            simp only [consResp] at h
            exact absurd h (by simp)
      · rw [if_neg hr] at h
        injection h with h1 h2 h3
        exact h3.symm
  · intro pre
    induction pre with
    | nil =>
      intro t rest buf i hpre ht
      rcases ht with rfl | ⟨m, rfl⟩ <;> rfl
    | cons e pre2 ih =>
      intro t rest buf i hpre ht
      obtain ⟨d, rfl⟩ := hpre e (List.mem_cons_self e pre2)
      have hpre2 : ∀ e2 ∈ pre2, ∃ d2, e2 = ReadEvent.data d2 :=
        fun e2 he2 => hpre e2 (List.mem_cons_of_mem _ he2)
      exact congrArg (consResp (handleStep decode exec buf d).2)
        (ih t rest (handleStep decode exec buf d).1 (i + 1) hpre2 ht)

theorem claim6_witness :
    handle_client decodeW execW (fun _ => true)
        [ReadEvent.closed, ReadEvent.data [0]] [] 0
      = handle_client decodeW execW (fun _ => true) [ReadEvent.closed] [] 0 :=
  (claim6_handler_exit decodeW execW).2 [] ReadEvent.closed [ReadEvent.data [0]]
    [] 0 (by simp) (Or.inl rfl)

/-- A concrete client-side decode function for witnesses: no buffer
ever parses. -/
def decodeV : List Nat → DecodeResult Value :=
  fun _ => DecodeResult.jsonError "Expecting value: line 1 column 1 (char 0)"

/-- Claim C7: a socket-level error during send or during the receive
loop clears the cached socket before the connection-lost failure is
raised; a receive timeout raises the communication failure kind and a
response that fails to parse raises the invalid-response failure kind,
both distinct constructors from the socket-level connection-lost kind,
the latter leaving the cached socket in place. -/
theorem claim7_send_failures (decode : List Nat → DecodeResult Value) :
    (∀ (connectOk : Bool) (m : String) (evs : List RecvEvent),
        send_command decode connectOk (SendOutcome.sockErr m) evs ⟨some ()⟩
          = some (⟨none⟩, Except.error (SendFailure.connectionLost
              ("Connection to Blender lost: " ++ m)))) ∧
    (∀ (connectOk : Bool) (m : String) (rest : List RecvEvent),
        send_command decode connectOk SendOutcome.ok
            (RecvEvent.err m :: rest) ⟨some ()⟩
          = some (⟨none⟩, Except.error (SendFailure.connectionLost
              ("Connection to Blender lost: " ++ m)))) ∧
    (∀ (connectOk : Bool) (rest : List RecvEvent),
        send_command decode connectOk SendOutcome.ok
            (RecvEvent.timeout :: rest) ⟨some ()⟩
          = some (⟨none⟩, Except.error (SendFailure.communicationError
              "Communication error with Blender: Timeout while receiving data from Blender"))) ∧
    (∀ (connectOk : Bool) (d : List Nat) (m : String),
        decode d = DecodeResult.jsonError m →
        send_command decode connectOk SendOutcome.ok
            [RecvEvent.chunk d, RecvEvent.closed] ⟨some ()⟩
          = some (⟨some ()⟩, Except.error (SendFailure.invalidResponse
              ("Invalid response from Blender: " ++ m)))) := by
  refine ⟨?_, ?_, ?_, ?_⟩
  · intro connectOk m evs
    cases connectOk <;> rfl
  · intro connectOk m rest
    cases connectOk <;> rfl
  · intro connectOk rest
    cases connectOk <;> rfl
  · intro connectOk d m hd
    cases connectOk <;>
      simp [send_command, receive_full_response, hd]

theorem claim7_witness :
    decodeV [0] = DecodeResult.jsonError "Expecting value: line 1 column 1 (char 0)" ∧
    send_command decodeV true SendOutcome.ok
        [RecvEvent.chunk [0], RecvEvent.closed] ⟨some ()⟩
      = some (⟨some ()⟩, Except.error (SendFailure.invalidResponse
          "Invalid response from Blender: Expecting value: line 1 column 1 (char 0)")) :=
  ⟨rfl, ((claim7_send_failures decodeV).2.2.2 true [0]
      "Expecting value: line 1 column 1 (char 0)" rfl).trans (by rfl)⟩

/-- Claim C8: when the socket setup in start fails, the state returns
to Stopped: the running flag is false and the socket handle absent, and
from the freshly constructed state a failed start leaves the state
exactly as constructed. -/
theorem claim8_start_failure (st : ServerState) (b : Bool)
    (h : st.running = false) :
    (serverStart st (StartOutcome.fail b)).running = false ∧
    (serverStart st (StartOutcome.fail b)).sock = none ∧
    serverStart ⟨false, none, none⟩ (StartOutcome.fail b)
      = ⟨false, none, none⟩ := by
  refine ⟨?_, ?_, ?_⟩ <;> simp [serverStart, serverStop, h]

theorem claim8_witness :
    serverStart ⟨false, none, none⟩ (StartOutcome.fail true)
      = ⟨false, none, none⟩ :=
  (claim8_start_failure ⟨false, none, none⟩ true rfl).2.2

end IfcMCP
